import Mathlib

/-
Verification of the e-commerce analytics engine (RFM segmentation, cohort
retention, A/B testing, metrics aggregation) against its specification.

The Python pipeline is shallowly embedded: per-customer metrics become lists
of rationals, pandas/scipy operations become explicit Lean functions on those
lists, and operations that can raise become Except-valued functions.
-/

namespace Ecommerce

/-! ## Basic statistics on lists of rationals

These model pandas Series operations (mean, sample variance with ddof = 1)
used by 02_ab_testing_analysis.py. -/

/-- Arithmetic mean of a list of rationals (pandas `Series.mean`).
Division by zero in ℚ yields 0 for the empty list; emptiness is tracked
separately where NaN propagation matters. -/
def listMean (l : List ℚ) : ℚ := l.sum / l.length

/-- Sample variance with ddof = 1 (pandas `Series.var` default), as used by
`cohens_d` in 02_ab_testing_analysis.py. -/
def sampleVar (l : List ℚ) : ℚ :=
  (l.map (fun x => (x - listMean l) ^ 2)).sum / ((l.length : ℚ) - 1)

/-- Pooled variance from `cohens_d` in 02_ab_testing_analysis.py:
`((n1-1)*var1 + (n2-1)*var2) / (n1+n2-2)`. -/
def pooledVar (g1 g2 : List ℚ) : ℚ :=
  (((g1.length : ℚ) - 1) * sampleVar g1 + ((g2.length : ℚ) - 1) * sampleVar g2) /
    ((g1.length : ℚ) + (g2.length : ℚ) - 2)

/-! ## A/B test revenue metrics (02_ab_testing_analysis.py lines 84-85) -/

/-- `results['revenue_uplift_pct'] = ((treatment_revenue - control_revenue) / control_revenue) * 100`. -/
def revenue_uplift_pct (control treatment : ℚ) : ℚ :=
  (treatment - control) / control * 100

/-- `results['roi'] = ((treatment_revenue - control_revenue - treatment_cost) / treatment_cost) * 100
if treatment_cost > 0 else 0`. -/
def roi (control treatment cost : ℚ) : ℚ :=
  if 0 < cost then (treatment - control - cost) / cost * 100 else 0

/-! ## RFM segment classification (04_rfm_segmentation.py, segment_customer) -/

/-- The ordered if/elif decision chain of `segment_customer`, evaluated
top-to-bottom on the integer R/F/M scores. -/
def segment_customer (r f m : ℕ) : String :=
  if 4 ≤ r ∧ 4 ≤ f ∧ 4 ≤ m then "Champions"
  else if 3 ≤ r ∧ 4 ≤ f ∧ 3 ≤ m then "Loyal Customers"
  else if 4 ≤ r ∧ 2 ≤ f ∧ 2 ≤ m then "Potential Loyalist"
  else if 4 ≤ r ∧ f = 1 then "New Customers"
  else if 3 ≤ r ∧ 2 ≤ f ∧ 2 ≤ m then "Promising"
  else if 3 ≤ r ∧ 3 ≤ f ∧ 3 ≤ m then "Need Attention"
  else if 2 ≤ r ∧ r ≤ 3 then "About To Sleep"
  else if r ≤ 2 ∧ 3 ≤ f ∧ 3 ≤ m then "At Risk"
  else if r ≤ 2 ∧ 4 ≤ f ∧ 4 ≤ m then "Cannot Lose Them"
  else if r ≤ 2 ∧ f ≤ 2 then "Hibernating"
  else "Lost"

/-! ## Quintile scoring (04_rfm_segmentation.py lines 58-60)

The scores are produced by `pd.qcut(values, q=5, labels=[...], duplicates="drop")`,
for Recency on the raw values and for Frequency/Monetary on
`values.rank(method="first")`.  The model below follows the pandas
implementation: quantile edges by linear interpolation over the sorted values,
duplicate edges removed, and a hard error when the explicit label list no
longer matches the number of bins that survived deduplication. -/

/-- Ascending sort of the values, as used by the pandas quantile computation. -/
def ascSort (l : List ℚ) : List ℚ := List.insertionSort (fun a b => a ≤ b) l

/-- Linear-interpolation quantile of a sorted list at the fraction num/den
(numpy default interpolation, used by `pd.qcut`): with h = q·(n−1), the value
is s[⌊h⌋] + frac(h)·(s[⌊h⌋+1] − s[⌊h⌋]). -/
def quantileAt (s : List ℚ) (num den : ℕ) : ℚ :=
  let pos := num * (s.length - 1)
  let i := pos / den
  let r : ℚ := ((pos % den : ℕ) : ℚ) / (den : ℚ)
  let lo := s.getD i 0
  let hi := s.getD (i + 1) lo
  lo + r * (hi - lo)

/-- The six quintile edges `quantile(l, [0, .2, .4, .6, .8, 1])` computed by
`pd.qcut(l, q=5, ...)`. -/
def qcutEdges (l : List ℚ) : List ℚ :=
  (List.range 6).map (fun i => quantileAt (ascSort l) i 5)

/-- Removal of duplicate bin edges (`duplicates="drop"`); the edge list is
nondecreasing, so dropping adjacent duplicates models `np.unique`. -/
def dedupAdj : List ℚ → List ℚ
  | [] => []
  | [a] => [a]
  | a :: b :: t => if a = b then dedupAdj (b :: t) else a :: dedupAdj (b :: t)

/-- Bin index of a value for right-closed bins with `include_lowest`: the
number of internal edges strictly below the value. -/
def binIndex (edges : List ℚ) (v : ℚ) : ℕ :=
  (((edges.drop 1).dropLast).filter (fun e => e < v)).length

/-- Model of `pd.qcut(l, q=5, labels=labels, duplicates="drop")`.  After edge
deduplication pandas re-checks the explicit label list and raises
`ValueError("Bin labels must be one fewer than the number of bin edges")`
when the counts no longer agree; otherwise every value is labelled. -/
def pyQcut (l : List ℚ) (labels : List ℤ) : Except String (List ℤ) :=
  let edges := dedupAdj (qcutEdges l)
  if labels.length + 1 = edges.length then
    Except.ok (l.map (fun v => labels.getD (binIndex edges v) 0))
  else Except.error "Bin labels must be one fewer than the number of bin edges"

/-- Model of `Series.rank(method="first")`: the rank of the element at
position i is one plus the number of elements that are smaller, or equal but
at an earlier position. -/
def pyRankFirst (l : List ℚ) : List ℚ :=
  (List.range l.length).map (fun i =>
    (1 : ℚ) + (((List.range l.length).filter (fun j =>
      l.getD j 0 < l.getD i 0 ∨ (l.getD j 0 = l.getD i 0 ∧ j < i))).length : ℚ))

/-- `R_Score`: `pd.qcut(rfm_data["Recency"], q=5, labels=[5,4,3,2,1], duplicates="drop")`
on the raw Recency values. -/
def rScores (recency : List ℚ) : Except String (List ℤ) :=
  pyQcut recency [5, 4, 3, 2, 1]

/-- `F_Score`: `pd.qcut(rfm_data["Frequency"].rank(method="first"), q=5, labels=[1,2,3,4,5], duplicates="drop")`. -/
def fScores (frequency : List ℚ) : Except String (List ℤ) :=
  pyQcut (pyRankFirst frequency) [1, 2, 3, 4, 5]

/-- `M_Score`: `pd.qcut(rfm_data["Monetary"].rank(method="first"), q=5, labels=[1,2,3,4,5], duplicates="drop")`. -/
def mScores (monetary : List ℚ) : Except String (List ℤ) :=
  pyQcut (pyRankFirst monetary) [1, 2, 3, 4, 5]

/-! ## Cohort retention engine (03_cohort_analysis.py)

A transaction is reduced to the pair of its customer id and its invoice month
(the `to_period("M")` value, embedded as an absolute month number, whose
integer differences are exactly the pandas Period subtraction used for
`MonthsSinceFirst`).  `CohortMonth` is the minimum month per customer, the
cohort table counts distinct customers per (cohort month, months since first)
group, the cohort size is merged in from the elapsed-0 rows, and the pivoted
retention matrix leaves combinations without any transaction as missing
(pandas NaN, modelled as `none`). -/

structure Tx where
  customer : ℕ
  month : ℤ

/-- The invoice months of one customer. -/
def txMonths (txs : List Tx) (c : ℕ) : List ℤ :=
  (txs.filter (fun t => t.customer = c)).map Tx.month

/-- `CohortMonth`: the month of the earliest transaction of the customer
(`MIN(InvoiceDate)` truncated to month). -/
def cohortOf (txs : List Tx) (c : ℕ) : Option ℤ := (txMonths txs c).min?

/-- All customer ids appearing in the transaction table. -/
def customerSet (txs : List Tx) : Finset ℕ := (txs.map Tx.customer).toFinset

/-- The customer has at least one transaction in the given month. -/
def activeAt (txs : List Tx) (c : ℕ) (m : ℤ) : Prop :=
  ∃ t ∈ txs, t.customer = c ∧ t.month = m

instance (txs : List Tx) (c : ℕ) (m : ℤ) : Decidable (activeAt txs c m) :=
  inferInstanceAs (Decidable (∃ t ∈ txs, t.customer = c ∧ t.month = m))

/-- The `groupby(["CohortMonth", "MonthsSinceFirst"])["CustomerID"].nunique()`
cell: distinct customers of cohort `cm` with a transaction at elapsed month
`e` (i.e. in calendar month `cm + e`). -/
def customersAt (txs : List Tx) (cm e : ℤ) : ℕ :=
  ((customerSet txs).filter
    (fun c => cohortOf txs c = some cm ∧ activeAt txs c (cm + e))).card

/-- `CohortSize`, merged in from the rows with `MonthsSinceFirst == 0`
(03_cohort_analysis.py lines 86-90). -/
def cohortSize (txs : List Tx) (cm : ℤ) : ℕ := customersAt txs cm 0

/-- A cell of the pivoted retention matrix: absent (pandas NaN) when the
(cohort, elapsed) group has no transaction, otherwise
`Customers / CohortSize * 100`. -/
def retentionCell (txs : List Tx) (cm e : ℤ) : Option ℚ :=
  if customersAt txs cm e = 0 then none
  else some ((customersAt txs cm e : ℚ) / (cohortSize txs cm : ℚ) * 100)

/-- The row labels of the retention matrix: the distinct cohort months. -/
def cohortMonthsList (txs : List Tx) : List ℤ :=
  (txs.filterMap (fun t => cohortOf txs t.customer)).dedup

/-- `retention_matrix.mean(axis=0)` for one elapsed-month column: pandas
skips NaN cells, so only the present cells are averaged; an all-NaN column
averages to NaN (`none`). -/
def avgRetentionByPeriod (txs : List Tx) (e : ℤ) : Option ℚ :=
  let cells := (cohortMonthsList txs).filterMap (fun cm => retentionCell txs cm e)
  if cells.length = 0 then none else some (cells.sum / (cells.length : ℚ))

/-- Auxiliary: a customer with a cohort month has a transaction in exactly
that month (the minimum of a list is attained). -/
theorem activeAt_cohortOf (txs : List Tx) (c : ℕ) (cm : ℤ)
    (h : cohortOf txs c = some cm) : activeAt txs c cm := by
  have hmem : cm ∈ txMonths txs c := List.min?_mem (fun a b => min_choice a b) h
  unfold txMonths at hmem
  simp only [List.mem_map, List.mem_filter, decide_eq_true_eq] at hmem
  obtain ⟨t, ⟨ht, hc⟩, hm⟩ := hmem
  exact ⟨t, ht, hc, hm⟩

/-- Auxiliary: the elapsed-0 group of a cohort contains every customer of the
cohort, so the cohort size is the full distinct-customer count. -/
theorem customersAt_zero_eq (txs : List Tx) (cm : ℤ) :
    customersAt txs cm 0 =
      ((customerSet txs).filter (fun c => cohortOf txs c = some cm)).card := by
  unfold customersAt
  refine congrArg Finset.card (Finset.filter_congr fun c _ => ?_)
  constructor
  · exact fun hx => hx.1
  · exact fun hx => ⟨hx, by simpa using activeAt_cohortOf txs c cm hx⟩

/-- Auxiliary: a cohort that occurs at all has positive size. -/
theorem cohortSize_pos (txs : List Tx) (cm : ℤ)
    (h : ∃ c ∈ customerSet txs, cohortOf txs c = some cm) :
    0 < cohortSize txs cm := by
  unfold cohortSize
  rw [customersAt_zero_eq]
  obtain ⟨c, hc, hcm⟩ := h
  exact Finset.card_pos.mpr ⟨c, Finset.mem_filter.mpr ⟨hc, hcm⟩⟩

/-! ## Revenue concentration (04_rfm_segmentation.py lines 179-192) -/

/-- `rfm_sorted = rfm_data.sort_values("Monetary", ascending=False)`. -/
def descSort (l : List ℚ) : List ℚ := List.insertionSort (fun a b => b ≤ a) l

/-- `int(len(rfm_sorted) * 0.1)` and `int(len(rfm_sorted) * 0.2)`: the head
count for the top tenths/10 fraction, truncated toward zero. -/
def topCount (n tenths : ℕ) : ℕ := n * tenths / 10

/-- `rfm_sorted.iloc[:k]["Monetary"].sum() / rfm_sorted["Monetary"].sum() * 100`. -/
def topSharePct (l : List ℚ) (k : ℕ) : ℚ :=
  ((descSort l).take k).sum / (descSort l).sum * 100

/-! ## Effect size and statistical degeneracy (02_ab_testing_analysis.py) -/

/-- `pooled_std` from `cohens_d`: the square root of the pooled variance. -/
noncomputable def pooled_std (g1 g2 : List ℚ) : ℝ :=
  Real.sqrt ((pooledVar g1 g2 : ℝ))

/-- `cohens_d(group1, group2) = (group1.mean() - group2.mean()) / pooled_std`. -/
noncomputable def cohens_d (g1 g2 : List ℚ) : ℝ :=
  ((listMean g1 : ℝ) - (listMean g2 : ℝ)) / pooled_std g1 g2

/-- The inputs on which `scipy.stats.ttest_ind` returns a NaN p-value: a group
with fewer than two observations (its ddof-1 variance, or for an empty group
its mean, is NaN; two singletons additionally give zero degrees of freedom),
or zero pooled variance with equal means (a 0/0 statistic). -/
def ttestNaN (g1 g2 : List ℚ) : Prop :=
  g1.length ≤ 1 ∨ g2.length ≤ 1 ∨
    (pooledVar g1 g2 = 0 ∧ listMean g1 = listMean g2)

instance (g1 g2 : List ℚ) : Decidable (ttestNaN g1 g2) :=
  inferInstanceAs (Decidable (g1.length ≤ 1 ∨ g2.length ≤ 1 ∨
    (pooledVar g1 g2 = 0 ∧ listMean g1 = listMean g2)))

/-- The p-value stored in `results["p_value_revenue"]`, with NaN modelled as
`none`.  On non-degenerate input the numeric value is the Student t survival
function, which has no closed form; it enters as the parameter `pFinite` so
that the model pins down exactly the degenerate cases and nothing else. -/
def ttest_p_value (g1 g2 : List ℚ) (pFinite : ℚ) : Option ℚ :=
  if ttestNaN g1 g2 then none else some pFinite

/-- The Python comparison `p < alpha` under IEEE semantics: any comparison
with NaN is False. -/
def pyLtNaN (p : Option ℚ) (alpha : ℚ) : Bool :=
  match p with
  | none => false
  | some v => decide (v < alpha)

/-- `results["significant_revenue"] = p_value_revenue < 0.05`: the stored
significance verdict, a plain Bool with no indeterminate state. -/
def significant_revenue (g1 g2 : List ℚ) (pFinite : ℚ) : Bool :=
  pyLtNaN (ttest_p_value g1 g2 pFinite) (1 / 20)

/-- One cell of the chi-square statistic with Yates continuity correction
(scipy default for a 2×2 table): `(max(0, |o − e| − ½))² / e`. -/
def yatesTerm (o e : ℚ) : ℚ := (max 0 (|o - e| - 1 / 2)) ^ 2 / e

/-- Model of `scipy.stats.chi2_contingency` on the 2×2 table [[a, b], [c, d]]:
expected frequencies under independence; scipy raises a ValueError when any
expected frequency is zero (in particular whenever a row, i.e. a test group,
is empty), and otherwise returns the corrected statistic.  An all-zero table
produces NaN expected frequencies and a NaN statistic (`ok none`). -/
def chi2_contingency (a b c d : ℕ) : Except String (Option ℚ) :=
  let total : ℕ := a + b + c + d
  if total = 0 then Except.ok none
  else
    let e11 : ℚ := ((a + b : ℕ) : ℚ) * ((a + c : ℕ) : ℚ) / (total : ℚ)
    let e12 : ℚ := ((a + b : ℕ) : ℚ) * ((b + d : ℕ) : ℚ) / (total : ℚ)
    let e21 : ℚ := ((c + d : ℕ) : ℚ) * ((a + c : ℕ) : ℚ) / (total : ℚ)
    let e22 : ℚ := ((c + d : ℕ) : ℚ) * ((b + d : ℕ) : ℚ) / (total : ℚ)
    if e11 = 0 ∨ e12 = 0 ∨ e21 = 0 ∨ e22 = 0 then
      Except.error "The internally computed table of expected frequencies has a zero element"
    else
      Except.ok (some (yatesTerm (a : ℚ) e11 + yatesTerm (b : ℚ) e12 +
        yatesTerm (c : ℚ) e21 + yatesTerm (d : ℚ) e22))

/-- `(control_customers["TotalOrders"] > 1).sum()`: customers with more than
one order. -/
def repeatCount (orders : List ℕ) : ℕ := (orders.filter (fun o => 1 < o)).length

/-- The chi-square step of 02_ab_testing_analysis.py lines 214-219: the
contingency table [[repeat, non-repeat] per group] passed to
`chi2_contingency`. -/
def repeat_chi2 (controlOrders treatmentOrders : List ℕ) : Except String (Option ℚ) :=
  chi2_contingency (repeatCount controlOrders)
    (controlOrders.length - repeatCount controlOrders)
    (repeatCount treatmentOrders)
    (treatmentOrders.length - repeatCount treatmentOrders)

/-! ## Metrics aggregator (05_comprehensive_metrics.py lines 134-153) -/

/-- Python `dict.get(key, default)`: total, never raises. -/
def pyDictGetQ (d : List (String × ℚ)) (k : String) (dflt : ℚ) : ℚ :=
  match d.find? (fun kv => kv.1 == k) with
  | some kv => kv.2
  | none => dflt

/-- One row of the RFM segment summary as consumed by the aggregator. -/
structure SegmentSummaryRow where
  segment : String
  customerPercent : ℚ

/-- The `retention` section of `comprehensive_metrics`: every field is read
with `cohort_results.get(key, default)` — default 100 for month-0 retention,
14.0 for the churn-reduction target, 0 for everything else. -/
structure RetentionSection where
  month0 : ℚ
  month1 : ℚ
  month2 : ℚ
  month3 : ℚ
  baselineChurn : ℚ
  targetChurn : ℚ
  churnReductionTarget : ℚ

/-- Construction of the `retention` section from the Cohort Engine output. -/
def buildRetentionSection (cohortResults : List (String × ℚ)) : RetentionSection :=
  { month0 := pyDictGetQ cohortResults "month_0_avg_retention" 100
    month1 := pyDictGetQ cohortResults "month_1_avg_retention" 0
    month2 := pyDictGetQ cohortResults "month_2_avg_retention" 0
    month3 := pyDictGetQ cohortResults "month_3_avg_retention" 0
    baselineChurn := pyDictGetQ cohortResults "baseline_month1_churn" 0
    targetChurn := pyDictGetQ cohortResults "target_month1_churn" 0
    churnReductionTarget := pyDictGetQ cohortResults "churn_reduction_pct" 14 }

/-- `champions_pct`: `next((s["CustomerPercent"] for s in segments if s["Segment"] == "Champions"), 0)`. -/
def champions_pct (segments : List SegmentSummaryRow) : ℚ :=
  match segments.find? (fun s => s.segment == "Champions") with
  | some s => s.customerPercent
  | none => 0

/-! ## Theorems -/

/-- C7: revenue uplift percent equals (treatment − control)/control × 100, so
control = 1000, treatment = 1100 yields +10.00 percent; ROI equals
(treatment − control − cost)/cost × 100 when cost > 0 and is exactly 0 when
cost = 0, never a division by zero. -/
theorem uplift_and_roi_formulas :
    revenue_uplift_pct 1000 1100 = 10
    ∧ (∀ c t : ℚ, roi c t 0 = 0)
    ∧ (∀ c t cost : ℚ, 0 < cost → roi c t cost = (t - c - cost) / cost * 100) := by
  refine ⟨by norm_num [revenue_uplift_pct], fun c t => by simp [roi], fun c t cost h => ?_⟩
  simp [roi, h]

/-- Witness for C7 at the specification example control = 5000,
treatment = 4500, cost = 600. -/
theorem uplift_and_roi_formulas_witness :
    roi 5000 4500 600 = ((4500 : ℚ) - 5000 - 600) / 600 * 100 :=
  uplift_and_roi_formulas.2.2 5000 4500 600 (by norm_num)

/-- C10: over all score triples in {1..5}³ the classifier never returns
"Need Attention" (shadowed by the earlier "Promising" rule) nor
"Cannot Lose Them" (shadowed by "About To Sleep" and "At Risk"), and each of
the remaining nine labels is reachable. -/
theorem segment_customer_dead_rules :
    (∀ r ∈ Finset.Icc 1 5, ∀ f ∈ Finset.Icc 1 5, ∀ m ∈ Finset.Icc 1 5,
        segment_customer r f m ≠ "Need Attention"
        ∧ segment_customer r f m ≠ "Cannot Lose Them")
    ∧ segment_customer 5 5 5 = "Champions"
    ∧ segment_customer 3 4 4 = "Loyal Customers"
    ∧ segment_customer 4 2 2 = "Potential Loyalist"
    ∧ segment_customer 4 1 1 = "New Customers"
    ∧ segment_customer 3 2 2 = "Promising"
    ∧ segment_customer 3 1 1 = "About To Sleep"
    ∧ segment_customer 1 3 3 = "At Risk"
    ∧ segment_customer 1 1 1 = "Hibernating"
    ∧ segment_customer 1 3 1 = "Lost" := by
  decide

/-- Witness for C10 at the triples that satisfy the shadowed rule bodies:
(3,3,3) matches the "Need Attention" predicate and (2,4,4) matches the
"Cannot Lose Them" predicate, yet neither label is produced. -/
theorem segment_customer_dead_rules_witness :
    segment_customer 3 3 3 ≠ "Need Attention"
    ∧ segment_customer 2 4 4 ≠ "Cannot Lose Them" :=
  ⟨(segment_customer_dead_rules.1 3 (by decide) 3 (by decide) 3 (by decide)).1,
   (segment_customer_dead_rules.1 2 (by decide) 4 (by decide) 4 (by decide)).2⟩

/-- Auxiliary: `getD` through a translation of every element. -/
theorem getD_map_add (l : List ℚ) (c : ℚ) (j : ℕ) (h : j < l.length) :
    (l.map (fun x => x + c)).getD j 0 = l.getD j 0 + c := by
  rw [List.getD_eq_getElem?_getD, List.getD_eq_getElem?_getD, List.getElem?_map,
    List.getElem?_eq_getElem h]
  simp

/-- Ranking with `method="first"` only depends on the order of the values, so
it is invariant under translating every value by the same constant. -/
theorem pyRankFirst_shift (l : List ℚ) (c : ℚ) :
    pyRankFirst (l.map (fun x => x + c)) = pyRankFirst l := by
  unfold pyRankFirst
  rw [List.length_map]
  refine List.map_congr_left fun i hi => ?_
  have hi' : i < l.length := List.mem_range.mp hi
  have hf : ((List.range l.length).filter (fun j =>
        decide ((l.map (fun x => x + c)).getD j 0 < (l.map (fun x => x + c)).getD i 0 ∨
          ((l.map (fun x => x + c)).getD j 0 = (l.map (fun x => x + c)).getD i 0 ∧ j < i)))) =
      ((List.range l.length).filter (fun j =>
        decide (l.getD j 0 < l.getD i 0 ∨ (l.getD j 0 = l.getD i 0 ∧ j < i)))) := by
    refine List.filter_congr fun j hj => ?_
    have hj' : j < l.length := List.mem_range.mp hj
    simp only [getD_map_add l c j hj', getD_map_add l c i hi']
    simp [add_lt_add_iff_right, add_left_inj]
  rw [hf]

/-- C2 (code bug): on a duplicate-heavy Recency population the quintile edges
collapse, and `pd.qcut` with the explicit label list [5,4,3,2,1] and
`duplicates="drop"` raises instead of collapsing the bucket count.  With
Recency values [1,1,1,1,1,2] only two distinct edges survive, so the R-score
computation fails with a ValueError rather than returning reduced-granularity
scores. -/
theorem rScores_error_on_duplicate_edges :
    rScores [1, 1, 1, 1, 1, 2] =
      Except.error "Bin labels must be one fewer than the number of bin edges" := by
  norm_num [rScores, pyQcut, qcutEdges, quantileAt, dedupAdj, binIndex, ascSort,
    List.insertionSort, List.orderedInsert, List.range_succ]

/-- C3 (counterexample): a customer population containing a non-positive
Monetary value (−5) is scored without any data-integrity error: the engine
returns scores 1..5 normally instead of aborting. -/
theorem mScores_ok_on_negative_monetary :
    mScores [-5, 10, 20, 30, 40] = Except.ok [1, 2, 3, 4, 5] := by
  norm_num [mScores, pyQcut, qcutEdges, quantileAt, dedupAdj, binIndex, ascSort, pyRankFirst,
    List.insertionSort, List.orderedInsert, List.range_succ]

/-- C3 (amended): the RFM engine performs no positivity check on Monetary at
all — the M-score pipeline ranks the values first, so its outcome (including
whether it errors) is invariant under translating the whole population by any
constant; the sign of Monetary can never trigger a failure. -/
theorem mScores_translation_invariant (l : List ℚ) (c : ℚ) :
    mScores (l.map (fun x => x + c)) = mScores l := by
  unfold mScores
  rw [pyRankFirst_shift]

/-- C5: for every cohort present in the transaction table, the elapsed-0
count equals the full distinct-customer count of the cohort, the retention
cell at elapsed month 0 is exactly 100 percent, and every populated cell of
the row is the cell count divided by that same elapsed-0 denominator. -/
theorem retention_month_zero (txs : List Tx) (cm : ℤ)
    (h : ∃ c ∈ customerSet txs, cohortOf txs c = some cm) :
    customersAt txs cm 0 =
      ((customerSet txs).filter (fun c => cohortOf txs c = some cm)).card
    ∧ retentionCell txs cm 0 = some 100
    ∧ (∀ e : ℤ, customersAt txs cm e ≠ 0 →
        retentionCell txs cm e =
          some ((customersAt txs cm e : ℚ) / (customersAt txs cm 0 : ℚ) * 100)) := by
  have hpos : customersAt txs cm 0 ≠ 0 := Nat.pos_iff_ne_zero.mp (cohortSize_pos txs cm h)
  refine ⟨customersAt_zero_eq txs cm, ?_, ?_⟩
  · unfold retentionCell cohortSize
    rw [if_neg hpos]
    have hk : ((customersAt txs cm 0 : ℚ)) ≠ 0 := Nat.cast_ne_zero.mpr hpos
    rw [div_self hk, one_mul]
  · intro e he
    unfold retentionCell cohortSize
    rw [if_neg he]

/-- Witness for C5 on a concrete three-transaction table with two customers
acquired in month 0. -/
theorem retention_month_zero_witness :
    retentionCell [⟨1, 0⟩, ⟨1, 1⟩, ⟨2, 0⟩] 0 0 = some 100 :=
  (retention_month_zero [⟨1, 0⟩, ⟨1, 1⟩, ⟨2, 0⟩] 0 (by decide)).2.1

/-- Auxiliary: `filterMap` is mapping the extraction over the kept entries. -/
theorem filterMap_eq_filter_map (L : List ℤ) (f : ℤ → Option ℚ) :
    L.filterMap f = (L.filter (fun x => (f x).isSome)).map (fun x => (f x).getD 0) := by
  induction L with
  | nil => rfl
  | cons a t ih =>
    cases hfa : f a with
    | none => simp [List.filterMap_cons, hfa, List.filter_cons, ih]
    | some v => simp [List.filterMap_cons, hfa, List.filter_cons, ih]

/-- C6: a (cohort, elapsed) combination is missing from the retention matrix
exactly when no transaction realises it (never stored as 0 — every populated
cell is strictly positive), and the per-period average is computed over the
cohorts with a present cell only. -/
theorem retention_missing_cells (txs : List Tx) (cm e : ℤ)
    (h : ∃ c ∈ customerSet txs, cohortOf txs c = some cm) :
    (retentionCell txs cm e = none ↔
      ¬ ∃ t ∈ txs, cohortOf txs t.customer = some cm ∧ t.month = cm + e)
    ∧ (∀ v : ℚ, retentionCell txs cm e = some v → 0 < v)
    ∧ avgRetentionByPeriod txs e =
        (if ((cohortMonthsList txs).filter
              (fun cm2 => (retentionCell txs cm2 e).isSome)).length = 0
         then none
         else some ((((cohortMonthsList txs).filter
              (fun cm2 => (retentionCell txs cm2 e).isSome)).map
                (fun cm2 => (retentionCell txs cm2 e).getD 0)).sum /
            (((cohortMonthsList txs).filter
              (fun cm2 => (retentionCell txs cm2 e).isSome)).length : ℚ))) := by
  have hbridge : (∃ c ∈ customerSet txs, cohortOf txs c = some cm ∧ activeAt txs c (cm + e)) ↔
      (∃ t ∈ txs, cohortOf txs t.customer = some cm ∧ t.month = cm + e) := by
    constructor
    · rintro ⟨c, _, hcm, t, ht, hct, htm⟩
      exact ⟨t, ht, by rw [hct]; exact hcm, htm⟩
    · rintro ⟨t, ht, hcm, htm⟩
      refine ⟨t.customer, ?_, hcm, ⟨t, ht, rfl, htm⟩⟩
      unfold customerSet
      exact List.mem_toFinset.mpr (List.mem_map.mpr ⟨t, ht, rfl⟩)
  refine ⟨?_, ?_, ?_⟩
  · have hcell : retentionCell txs cm e = none ↔ customersAt txs cm e = 0 := by
      unfold retentionCell
      by_cases hk : customersAt txs cm e = 0 <;> simp [hk]
    rw [hcell, ← hbridge]
    unfold customersAt
    rw [Finset.card_eq_zero, Finset.filter_eq_empty_iff]
    constructor
    · rintro hall ⟨c, hc, hcm, hact⟩
      exact hall hc ⟨hcm, hact⟩
    · intro hne c hc hx
      exact hne ⟨c, hc, hx.1, hx.2⟩
  · intro v hv
    unfold retentionCell at hv
    by_cases hk : customersAt txs cm e = 0
    · rw [if_pos hk] at hv
      cases hv
    · rw [if_neg hk] at hv
      have hv2 : (customersAt txs cm e : ℚ) / (cohortSize txs cm : ℚ) * 100 = v :=
        Option.some_inj.mp hv
      rw [← hv2]
      have hnum : (0 : ℚ) < (customersAt txs cm e : ℚ) :=
        Nat.cast_pos.mpr (Nat.pos_iff_ne_zero.mpr hk)
      have hden : (0 : ℚ) < (cohortSize txs cm : ℚ) :=
        Nat.cast_pos.mpr (cohortSize_pos txs cm h)
      have : (0 : ℚ) < (customersAt txs cm e : ℚ) / (cohortSize txs cm : ℚ) :=
        div_pos hnum hden
      linarith
  · unfold avgRetentionByPeriod
    rw [filterMap_eq_filter_map]
    simp

/-- Witness for C6 on the concrete table: customer 1 of the month-0 cohort
returns at elapsed month 1, giving the populated (hence positive) cell 50. -/
theorem retention_missing_cells_witness :
    retentionCell [⟨1, 0⟩, ⟨1, 1⟩, ⟨2, 0⟩] 0 1 = some 50 ∧ (0 : ℚ) < 50 := by
  have h1 : customersAt [⟨1, 0⟩, ⟨1, 1⟩, ⟨2, 0⟩] 0 1 = 1 := by decide
  have h2 : customersAt [⟨1, 0⟩, ⟨1, 1⟩, ⟨2, 0⟩] 0 0 = 2 := by decide
  have hcell : retentionCell [⟨1, 0⟩, ⟨1, 1⟩, ⟨2, 0⟩] 0 1 = some 50 := by
    unfold retentionCell cohortSize
    rw [h1, h2]
    norm_num
  exact ⟨hcell,
    (retention_missing_cells [⟨1, 0⟩, ⟨1, 1⟩, ⟨2, 0⟩] 0 1 (by decide)).2.1 50 hcell⟩

/-- Auxiliary: prefix sums of a list with non-negative entries are monotone
in the prefix length. -/
theorem sum_take_mono (l : List ℚ) (hpos : ∀ x ∈ l, 0 ≤ x) {j k : ℕ} (hjk : j ≤ k) :
    (l.take j).sum ≤ (l.take k).sum := by
  have h1 : l.take j = (l.take k).take j := by
    rw [List.take_take, min_eq_left hjk]
  have h2 : ((l.take k).take j).sum + ((l.take k).drop j).sum = (l.take k).sum := by
    rw [← List.sum_append, List.take_append_drop]
  have h3 : 0 ≤ ((l.take k).drop j).sum := by
    refine List.sum_nonneg fun x hx => hpos x ?_
    exact List.take_subset k l (List.drop_subset j _ hx)
  rw [h1]
  linarith

/-- C8: for a revenue distribution with non-negative per-customer Monetary
values and positive total, the top-20 percent revenue share computed by
descending sort and cumulative sum is at least the top-10 percent share. -/
theorem top20_share_ge_top10 (l : List ℚ)
    (hpos : ∀ x ∈ l, 0 ≤ x) (hsum : 0 < l.sum) :
    topSharePct l (topCount l.length 1) ≤ topSharePct l (topCount l.length 2) := by
  have hperm : (descSort l).sum = l.sum := (List.perm_insertionSort _ l).sum_eq
  have hpos2 : ∀ x ∈ descSort l, 0 ≤ x :=
    fun x hx => hpos x ((List.mem_insertionSort _).mp hx)
  have hk : topCount l.length 1 ≤ topCount l.length 2 :=
    Nat.div_le_div_right (Nat.mul_le_mul_left _ (by norm_num))
  have hmono := sum_take_mono (descSort l) hpos2 hk
  have hsum2 : 0 < (descSort l).sum := hperm ▸ hsum
  unfold topSharePct
  have hdiv := (div_le_div_iff_of_pos_right hsum2).mpr hmono
  exact mul_le_mul_of_nonneg_right hdiv (by norm_num)

/-- Witness for C8 on ten customers with Monetary 10, 9, ..., 1: the top-10
percent head is one customer, the top-20 percent head is two. -/
theorem top20_share_ge_top10_witness :
    topSharePct [10, 9, 8, 7, 6, 5, 4, 3, 2, 1]
        (topCount (List.length ([10, 9, 8, 7, 6, 5, 4, 3, 2, 1] : List ℚ)) 1) ≤
      topSharePct [10, 9, 8, 7, 6, 5, 4, 3, 2, 1]
        (topCount (List.length ([10, 9, 8, 7, 6, 5, 4, 3, 2, 1] : List ℚ)) 2) := by
  refine top20_share_ge_top10 _ (by decide) ?_
  norm_num [List.sum_cons]

/-- C9: the Cohen effect size is antisymmetric in the two groups — for samples
of size at least two with positive pooled variance, swapping the groups
negates the value (so the magnitude is unchanged). -/
theorem cohens_d_antisymm (g1 g2 : List ℚ) (h1 : 2 ≤ g1.length) (h2 : 2 ≤ g2.length)
    (hv : 0 < pooledVar g1 g2) :
    cohens_d g1 g2 = -cohens_d g2 g1 := by
  have hsym : pooledVar g2 g1 = pooledVar g1 g2 := by
    unfold pooledVar
    ring_nf
  unfold cohens_d pooled_std
  rw [hsym, ← neg_div, neg_sub]

/-- Witness for C9 at the pairs [5, 5] and [0, 2], whose pooled variance is 1. -/
theorem cohens_d_antisymm_witness :
    (0 : ℚ) < pooledVar [5, 5] [0, 2]
    ∧ cohens_d [5, 5] [0, 2] = -cohens_d [0, 2] [5, 5] := by
  have hv : (0 : ℚ) < pooledVar [5, 5] [0, 2] := by
    norm_num [pooledVar, sampleVar, listMean, List.sum_cons]
  exact ⟨hv, cohens_d_antisymm _ _ (by decide) (by decide) hv⟩

/-- C4 (counterexample): with an empty control group the chi-square step
raises a ValueError (a crash, not a flagged indeterminate result), and with
two singleton groups the t-test p-value is NaN, which the comparison
`p < 0.05` silently turns into the definite verdict `significant = False`
for any would-be finite p-value. -/
theorem ab_degenerate_counterexample :
    repeat_chi2 [] [2, 1] =
      Except.error "The internally computed table of expected frequencies has a zero element"
    ∧ significant_revenue [5] [7] (1 / 1000) = false := by
  constructor
  · norm_num [repeat_chi2, chi2_contingency, repeatCount]
  · norm_num [significant_revenue, ttest_p_value, ttestNaN, pyLtNaN]

/-- Auxiliary: a contingency table with an empty first row makes
`chi2_contingency` raise. -/
theorem chi2_zero_row (c d : ℕ) (h : c + d ≠ 0) :
    chi2_contingency 0 0 c d =
      Except.error "The internally computed table of expected frequencies has a zero element" := by
  unfold chi2_contingency
  simp [h]

/-- C4 (amended): statistical degeneracy is not handled — a group with fewer
than two observations gives a NaN t-test p-value that is stored as the plain
verdict `significant = False` with no indeterminate flag, and an empty group
makes the chi-square test crash with a ValueError. -/
theorem ab_degenerate_silent (g1 g2 : List ℚ) (p : ℚ) (tOrders : List ℕ)
    (hdeg : g1.length ≤ 1) (ht : tOrders ≠ []) :
    ttest_p_value g1 g2 p = none
    ∧ significant_revenue g1 g2 p = false
    ∧ repeat_chi2 [] tOrders =
        Except.error "The internally computed table of expected frequencies has a zero element" := by
  have hnan : ttestNaN g1 g2 := Or.inl hdeg
  have hp : ttest_p_value g1 g2 p = none := by
    unfold ttest_p_value
    rw [if_pos hnan]
  refine ⟨hp, ?_, ?_⟩
  · unfold significant_revenue
    rw [hp]
    rfl
  · have hlen : 0 < tOrders.length := List.length_pos.mpr ht
    have hle : (tOrders.filter (fun o => 1 < o)).length ≤ tOrders.length :=
      List.length_filter_le _ _
    unfold repeat_chi2
    have h0 : repeatCount [] = 0 := rfl
    have hlen0 : ([] : List ℕ).length = 0 := rfl
    rw [h0, hlen0]
    exact chi2_zero_row _ _ (by unfold repeatCount; omega)

/-- Witness for C4 with a singleton control revenue group and a two-customer
treatment order list. -/
theorem ab_degenerate_silent_witness :
    ttest_p_value [9] [3, 4] (41 / 100) = none
    ∧ significant_revenue [9] [3, 4] (41 / 100) = false
    ∧ repeat_chi2 [] [1, 5] =
        Except.error "The internally computed table of expected frequencies has a zero element" :=
  ab_degenerate_silent [9] [3, 4] (41 / 100) [1, 5] (by decide) (by decide)

/-- C1 (counterexample): when the Cohort Engine output lacks the retention
join keys and the RFM output lacks the Champions segment, the aggregator does
not raise — it silently stores the defaults 0 (month-1 retention, Champions
share) and 100 (month-0 retention). -/
theorem aggregator_missing_keys_defaulted :
    (buildRetentionSection []).month1 = 0
    ∧ (buildRetentionSection []).month0 = 100
    ∧ champions_pct [] = 0 :=
  ⟨rfl, rfl, rfl⟩

/-- C1 (amended): a retention key absent from the Cohort Engine output and a
segment name absent from the RFM output are never a hard error at aggregation
time: `dict.get` and `next(..., 0)` silently substitute the default value. -/
theorem aggregator_silent_defaults (cr : List (String × ℚ)) (segs : List SegmentSummaryRow)
    (h1 : ∀ kv ∈ cr, kv.1 ≠ "month_1_avg_retention")
    (h2 : ∀ s ∈ segs, s.segment ≠ "Champions") :
    (buildRetentionSection cr).month1 = 0 ∧ champions_pct segs = 0 := by
  constructor
  · have hnone : cr.find? (fun kv => kv.1 == "month_1_avg_retention") = none := by
      rw [List.find?_eq_none]
      intro kv hkv
      simpa using h1 kv hkv
    show pyDictGetQ cr "month_1_avg_retention" 0 = 0
    unfold pyDictGetQ
    rw [hnone]
  · have hnone : segs.find? (fun s => s.segment == "Champions") = none := by
      rw [List.find?_eq_none]
      intro s hs
      simpa using h2 s hs
    unfold champions_pct
    rw [hnone]

/-- Witness for C1: a cohort record holding only the month-0 key and a
segment table holding only the Lost segment. -/
theorem aggregator_silent_defaults_witness :
    (buildRetentionSection [("month_0_avg_retention", 100)]).month1 = 0
    ∧ champions_pct [⟨"Lost", 50⟩] = 0 :=
  aggregator_silent_defaults _ _ (by decide) (by decide)

end Ecommerce
